import Mathlib

/-!
# Shallow embedding of `gates.py` (logic-gate simulator)

Each Python gate class is modelled by a Lean structure holding the values of
all of its pins (for a composite gate: all pins of its internal sub-gate
network, since the composite's public pins are aliases of internal pins).
Each `InputPin.setValue` entry point is modelled by a Lean function that
performs exactly the sequence of pin writes and `refreshOutputs` calls the
Python code performs, in program order.  `OutputPin.setValue` always stores
the value and then forwards it to every connected pin, whether or not the
value changed; connection sets are iterated in insertion order of the
`addConnection` calls.
-/

namespace Gates

/-! ## Generic `Gate` base-class machinery (pin indexing, `gates.py` lines 93-131)

`Gate` keeps a list of input pins and a list of output pins; `getInPin` /
`getOutPin` return the pin when `0 <= index < len(pins)` and raise a
`GateException` otherwise.  We model a gate's pin values as two lists of
booleans and the exception as `Except.error`.  The `refresh` parameter of
`setInE` models the subclass's `refreshOutputs`, which computes the new
output values from the (updated) inputs and the old outputs (memory gates
read their old outputs). -/

structure GateState where
  inputs : List Bool
  outputs : List Bool
deriving DecidableEq, Repr

/-- `Gate.getInPin` (lines 105-108): bounds-checked access to an input pin. -/
def getInPinE (g : GateState) (i : Int) : Except String Bool :=
  if h : 0 ≤ i ∧ i < (g.inputs.length : Int) then
    .ok (g.inputs.get ⟨i.toNat, by omega⟩)
  else
    .error "No input pin on this gate."

/-- `Gate.getOutPin` (lines 110-113): bounds-checked access to an output pin. -/
def getOutPinE (g : GateState) (i : Int) : Except String Bool :=
  if h : 0 ≤ i ∧ i < (g.outputs.length : Int) then
    .ok (g.outputs.get ⟨i.toNat, by omega⟩)
  else
    .error "No output pin on this gate."

/-- `Gate.getIn` (lines 97-99): `return self.getInPin(index).value`. -/
def getInE (g : GateState) (i : Int) : Except String Bool :=
  getInPinE g i

/-- `Gate.getOut` (lines 101-103).  The Python body is
`self.getOutPin(index).value` with **no `return` statement**: it looks the
pin up (raising on a bad index), reads the `value` property (a plain
attribute read with no side effect) and then falls off the end of the
function, returning Python's `None`.  We model the result as
`Option Bool`, where `none` is Python's `None`. -/
def getOutE (g : GateState) (i : Int) : Except String (Option Bool) :=
  (getOutPinE g i).map (fun _ => none)

/-- `Gate.setIn` (lines 93-95): `self.getInPin(index).value = value`.
The index check in `getInPin` happens before any mutation; on success the
`InputPin` stores the value and calls the gate's `refreshOutputs`. -/
def setInE (refresh : List Bool → List Bool → List Bool)
    (g : GateState) (i : Int) (v : Bool) : Except String GateState :=
  if 0 ≤ i ∧ i < (g.inputs.length : Int) then
    let ins := g.inputs.set i.toNat v
    .ok ⟨ins, refresh ins g.outputs⟩
  else
    .error "No input pin on this gate."

/-- `Gate._setOut` (lines 127-131): bounds-checked write of an output pin
(for a standalone gate the output pin has no connections, so the write just
stores the value). -/
def setOutE (g : GateState) (i : Int) (v : Bool) : Except String GateState :=
  if 0 ≤ i ∧ i < (g.outputs.length : Int) then
    .ok ⟨g.inputs, g.outputs.set i.toNat v⟩
  else
    .error "No output pin on this gate."

/-! ## Primitive gates: `And`, `Or`, `Not`, `Xor` (lines 145-175)

Each has its own state record.  `setIn0`/`setIn1` model a `setIn` call with
a valid index: store the input value, then run the subclass's
`refreshOutputs`, which writes the single output pin (no connections on a
standalone gate). -/

structure AndState where
  in0 : Bool
  in1 : Bool
  out : Bool
deriving DecidableEq, Repr

/-- `And.refreshOutputs`: `self._setOut(0, all(pin.value for pin in inputs))`. -/
def andRefresh (s : AndState) : AndState :=
  { s with out := s.in0 && s.in1 }

def andSetIn0 (v : Bool) (s : AndState) : AndState := andRefresh { s with in0 := v }

def andSetIn1 (v : Bool) (s : AndState) : AndState := andRefresh { s with in1 := v }

/-- Fresh `And()`: `Gate.__init__(2, 1)` creates all pins with value `False`. -/
def andInit : AndState := ⟨false, false, false⟩

structure OrState where
  in0 : Bool
  in1 : Bool
  out : Bool
deriving DecidableEq, Repr

/-- `Or.refreshOutputs`: `self._setOut(0, any(pin.value for pin in inputs))`. -/
def orRefresh (s : OrState) : OrState :=
  { s with out := s.in0 || s.in1 }

def orSetIn0 (v : Bool) (s : OrState) : OrState := orRefresh { s with in0 := v }

def orSetIn1 (v : Bool) (s : OrState) : OrState := orRefresh { s with in1 := v }

def orInit : OrState := ⟨false, false, false⟩

structure NotState where
  in0 : Bool
  out : Bool
deriving DecidableEq, Repr

/-- `Not.refreshOutputs`: `self._setOut(0, not self._inputs[0].value)`. -/
def notRefresh (s : NotState) : NotState :=
  { s with out := !s.in0 }

def notSetIn0 (v : Bool) (s : NotState) : NotState := notRefresh { s with in0 := v }

def notInit : NotState := ⟨false, false⟩

structure XorState where
  in0 : Bool
  in1 : Bool
  out : Bool
deriving DecidableEq, Repr

/-- `Xor.refreshOutputs`: `self._setOut(0, in0 ^ in1)`. -/
def xorRefresh (s : XorState) : XorState :=
  { s with out := Bool.xor s.in0 s.in1 }

def xorSetIn0 (v : Bool) (s : XorState) : XorState := xorRefresh { s with in0 := v }

def xorSetIn1 (v : Bool) (s : XorState) : XorState := xorRefresh { s with in1 := v }

def xorInit : XorState := ⟨false, false, false⟩

/-! ## `Fan` (lines 216-224): one input copied to `n` outputs. -/

structure FanState where
  inp : Bool
  outs : List Bool
deriving DecidableEq, Repr

/-- `Fan.refreshOutputs`: `for i in range(len(outputs)): outputs[i].value = inputs[0].value`. -/
def fanRefresh (s : FanState) : FanState :=
  { s with outs := s.outs.map (fun _ => s.inp) }

def fanSetIn0 (v : Bool) (s : FanState) : FanState := fanRefresh { s with inp := v }

/-- Fresh `Fan(n)`: one input pin and `n` output pins, all `False`. -/
def fanInit (n : Nat) : FanState := ⟨false, List.replicate n false⟩

/-! ## `SRLatch` (lines 560-602): the memory primitive.

Its `refreshOutputs` reads the current inputs R (= pin 0) and S (= pin 1)
and, for the race case R = S = True, draws a random boolean
(`bool(random.randint(1, 10) % 2)`).  The draw is modelled by the explicit
oracle argument `x`. -/

structure SRLatchState where
  rIn : Bool
  sIn : Bool
  q : Bool
  nq : Bool
deriving DecidableEq, Repr

/-- `SRLatch.refreshOutputs` (lines 588-602), with the random draw of the
race branch passed in as `x`. -/
def srRefresh (x : Bool) (s : SRLatchState) : SRLatchState :=
  if s.rIn && s.sIn then { s with q := x, nq := !x }
  else if s.rIn && !s.sIn then { s with q := false, nq := true }
  else if !s.rIn && s.sIn then { s with q := true, nq := false }
  else s

def srSetIn0 (x : Bool) (v : Bool) (s : SRLatchState) : SRLatchState :=
  srRefresh x { s with rIn := v }

def srSetIn1 (x : Bool) (v : Bool) (s : SRLatchState) : SRLatchState :=
  srRefresh x { s with sIn := v }

/-- Fresh `SRLatch()`: `Gate.__init__(2, 2)` makes all four pins `False`,
then the constructor runs `self._setOut(0, False); self._setOut(1, True)`. -/
def srInit : SRLatchState := ⟨false, false, false, true⟩

/-! ## `TwoGateChain` (lines 177-188) and its instances `Nand`, `Nor`, `Xnor`

`TwoGateChain(a, b)` first checks `a.nOutputs == b.nInputs` (raising a
`GateException` *before* any `addConnection` call), then adopts `a`'s input
pins and `b`'s output pins as its own and connects output `i` of `a` to
input `i` of `b`.  All three instances chain a two-input one-output gate
(`And`/`Or`/`Xor`, boolean function `fa`) into a `Not`. -/

/-- The constructor's wiring step, abstracted over the two pin counts: the
arity check, then the list of `(a output index, b input index)` connections
made.  On arity mismatch the exception fires before any connection exists. -/
def twoGateChainConnections (aOuts bIns : Nat) : Except String (List (Nat × Nat)) :=
  if aOuts ≠ bIns then
    .error "Cannot connect output pins to input pins"
  else
    .ok ((List.range aOuts).map (fun i => (i, i)))

structure Chain2State where
  aIn0 : Bool
  aIn1 : Bool
  aOut : Bool
  bIn : Bool
  bOut : Bool
deriving DecidableEq, Repr

/-- Writing input 0 of the chain (= input 0 of gate `a`): store, refresh `a`
(output function `fa`), forward `a`'s output over the connection into the
`Not`'s input, refresh the `Not`. -/
def chain2SetIn0 (fa : Bool → Bool → Bool) (v : Bool) (s : Chain2State) : Chain2State :=
  let s := { s with aIn0 := v }
  let o := fa s.aIn0 s.aIn1
  let s := { s with aOut := o }
  let s := { s with bIn := s.aOut }
  { s with bOut := !s.bIn }

def chain2SetIn1 (fa : Bool → Bool → Bool) (v : Bool) (s : Chain2State) : Chain2State :=
  let s := { s with aIn1 := v }
  let o := fa s.aIn0 s.aIn1
  let s := { s with aOut := o }
  let s := { s with bIn := s.aOut }
  { s with bOut := !s.bIn }

/-- Fresh chain: every pin of both sub-gates is `False`. -/
def chain2Init : Chain2State := ⟨false, false, false, false, false⟩

def nandSetIn0 : Bool → Chain2State → Chain2State := chain2SetIn0 (· && ·)
def nandSetIn1 : Bool → Chain2State → Chain2State := chain2SetIn1 (· && ·)
def norSetIn0 : Bool → Chain2State → Chain2State := chain2SetIn0 (· || ·)
def norSetIn1 : Bool → Chain2State → Chain2State := chain2SetIn1 (· || ·)
def xnorSetIn0 : Bool → Chain2State → Chain2State := chain2SetIn0 Bool.xor
def xnorSetIn1 : Bool → Chain2State → Chain2State := chain2SetIn1 Bool.xor

/-! ## `TwoToOneMux` (lines 239-268)

Internal gates: `Fan(2)`, `And` ×2, `Not`, `Or`.  Public pins (aliases):
input 0 = fan input (the selector), input 1 = and1 input 0, input 2 = and2
input 0, output = or output.  Connections: fan out0 → not in, fan out1 →
and2 in1, not out → and1 in1, and1 out → or in0, and2 out → or in1. -/

structure MuxState where
  fanIn : Bool
  fanO0 : Bool
  fanO1 : Bool
  notIn : Bool
  notOut : Bool
  a1In0 : Bool
  a1In1 : Bool
  a1Out : Bool
  a2In0 : Bool
  a2In1 : Bool
  a2Out : Bool
  oIn0 : Bool
  oIn1 : Bool
  oOut : Bool
deriving DecidableEq, Repr

/-- Write to the internal `Or`'s input 0 and refresh it (its output pin has
no connections; it is the mux's public output). -/
def muxSetOrIn0 (v : Bool) (s : MuxState) : MuxState :=
  let s := { s with oIn0 := v }
  { s with oOut := s.oIn0 || s.oIn1 }

def muxSetOrIn1 (v : Bool) (s : MuxState) : MuxState :=
  let s := { s with oIn1 := v }
  { s with oOut := s.oIn0 || s.oIn1 }

/-- Write to `and1` input 1 (fed by the `Not`): refresh `and1`, forward its
output to `or` input 0. -/
def muxSetA1In1 (v : Bool) (s : MuxState) : MuxState :=
  let s := { s with a1In1 := v }
  let o := s.a1In0 && s.a1In1
  let s := { s with a1Out := o }
  muxSetOrIn0 s.a1Out s

/-- Write to `and1` input 0 (the mux's public input 1). -/
def muxSetA1In0 (v : Bool) (s : MuxState) : MuxState :=
  let s := { s with a1In0 := v }
  let o := s.a1In0 && s.a1In1
  let s := { s with a1Out := o }
  muxSetOrIn0 s.a1Out s

/-- Write to `and2` input 1 (fed by the fan). -/
def muxSetA2In1 (v : Bool) (s : MuxState) : MuxState :=
  let s := { s with a2In1 := v }
  let o := s.a2In0 && s.a2In1
  let s := { s with a2Out := o }
  muxSetOrIn1 s.a2Out s

/-- Write to `and2` input 0 (the mux's public input 2). -/
def muxSetA2In0 (v : Bool) (s : MuxState) : MuxState :=
  let s := { s with a2In0 := v }
  let o := s.a2In0 && s.a2In1
  let s := { s with a2Out := o }
  muxSetOrIn1 s.a2Out s

/-- Write to the `Not`'s input (fed by fan out0): refresh it, forward to
`and1` input 1. -/
def muxSetNotIn (v : Bool) (s : MuxState) : MuxState :=
  let s := { s with notIn := v }
  let s := { s with notOut := !s.notIn }
  muxSetA1In1 s.notOut s

/-- The mux's public input 0 (the selector = the fan's input).
`Fan.refreshOutputs` writes out0 then out1, each forwarding in turn. -/
def muxSetIn0 (v : Bool) (s : MuxState) : MuxState :=
  let s := { s with fanIn := v }
  let s := { s with fanO0 := s.fanIn }
  let s := muxSetNotIn s.fanO0 s
  let s := { s with fanO1 := s.fanIn }
  muxSetA2In1 s.fanO1 s

/-- The mux's public input 1 (= `and1` input 0). -/
def muxSetIn1 : Bool → MuxState → MuxState := muxSetA1In0

/-- The mux's public input 2 (= `and2` input 0). -/
def muxSetIn2 : Bool → MuxState → MuxState := muxSetA2In0

/-- Fresh `TwoToOneMux()`: the constructor only aliases and connects pins,
so every pin of the internal network is `False`. -/
def muxInit : MuxState := ⟨false, false, false, false, false, false, false,
  false, false, false, false, false, false, false⟩

/-! ## `HalfAdder` (lines 425-442) and `OneBitAdder` (lines 459-490)

`OneBitAdder` contains `Fan(2)` ×2, `Xor`, a `HalfAdder` (itself `Fan(2)`
×2, `Xor`, `And`) and `And`, `Or`.  Public pins: input 0 = fan1 input,
input 1 = fan2 input, input 2 = half-adder input 0 (= its fan1 input);
output 0 (carry) = or output, output 1 (sum) = half-adder output 1 (= its
xor output).

Connections: fan1 out0 → {xor in0, and in0} (in `addConnection` order),
fan2 out0 → {xor in1, and in1}, xor out → half-adder input 1, half-adder
output 0 (= its and output) → or in0, and out → or in1.  fan1 out1 and
fan2 out1 are unconnected.

Inside the half adder: its fan1 out0 → its xor in0, its fan1 out1 → its
and in0, its fan2 out0 → its xor in1, its fan2 out1 → its and in1.

The adder's carry pin (the internal `Or`'s output) is the one pin that gets
an *external* connection when adders are chained in `FourBitAdder`, so each
propagation function also returns the ordered list of values written to
that pin (every `OutputPin.setValue` forwards, even when the value is
unchanged).  The external cascade cannot write back into the emitting
adder — there is no connection into it from downstream — so applying the
collected writes after the adder's own propagation is the same final state
as the nested calls the Python makes. -/

structure OBA where
  fan1In : Bool
  fan1O0 : Bool
  fan1O1 : Bool
  fan2In : Bool
  fan2O0 : Bool
  fan2O1 : Bool
  xIn0 : Bool
  xIn1 : Bool
  xOut : Bool
  hFan1In : Bool
  hFan1O0 : Bool
  hFan1O1 : Bool
  hFan2In : Bool
  hFan2O0 : Bool
  hFan2O1 : Bool
  hXIn0 : Bool
  hXIn1 : Bool
  hXOut : Bool
  hAIn0 : Bool
  hAIn1 : Bool
  hAOut : Bool
  aIn0 : Bool
  aIn1 : Bool
  aOut : Bool
  oIn0 : Bool
  oIn1 : Bool
  oOut : Bool
deriving DecidableEq, Repr

/-- Write to the internal `Or`'s input 0; its output is the carry pin, so
the refreshed value is emitted as a carry-pin write event. -/
def obaSetOrIn0 (v : Bool) (s : OBA) : OBA × List Bool :=
  let s := { s with oIn0 := v }
  let o := s.oIn0 || s.oIn1
  ({ s with oOut := o }, [o])

def obaSetOrIn1 (v : Bool) (s : OBA) : OBA × List Bool :=
  let s := { s with oIn1 := v }
  let o := s.oIn0 || s.oIn1
  ({ s with oOut := o }, [o])

/-- Half adder's internal `And` (its output 0, the carry) feeds `or` in0. -/
def obaSetHAndIn0 (v : Bool) (s : OBA) : OBA × List Bool :=
  let s := { s with hAIn0 := v }
  let o := s.hAIn0 && s.hAIn1
  obaSetOrIn0 o { s with hAOut := o }

def obaSetHAndIn1 (v : Bool) (s : OBA) : OBA × List Bool :=
  let s := { s with hAIn1 := v }
  let o := s.hAIn0 && s.hAIn1
  obaSetOrIn0 o { s with hAOut := o }

/-- Half adder's internal `Xor`; its output is the adder's sum pin, which
has no connections (also none when chained in `FourBitAdder`). -/
def obaSetHXorIn0 (v : Bool) (s : OBA) : OBA × List Bool :=
  let s := { s with hXIn0 := v }
  ({ s with hXOut := Bool.xor s.hXIn0 s.hXIn1 }, [])

def obaSetHXorIn1 (v : Bool) (s : OBA) : OBA × List Bool :=
  let s := { s with hXIn1 := v }
  ({ s with hXOut := Bool.xor s.hXIn0 s.hXIn1 }, [])

/-- Half adder input 1 (= its fan2 input), fed by the outer `Xor`. -/
def obaSetHFan2In (v : Bool) (s : OBA) : OBA × List Bool :=
  let s := { s with hFan2In := v }
  let s := { s with hFan2O0 := s.hFan2In }
  let (s, e1) := obaSetHXorIn1 s.hFan2O0 s
  let s := { s with hFan2O1 := s.hFan2In }
  let (s, e2) := obaSetHAndIn1 s.hFan2O1 s
  (s, e1 ++ e2)

/-- Half adder input 0 (= its fan1 input) — the adder's public input 2. -/
def obaSetHFan1In (v : Bool) (s : OBA) : OBA × List Bool :=
  let s := { s with hFan1In := v }
  let s := { s with hFan1O0 := s.hFan1In }
  let (s, e1) := obaSetHXorIn0 s.hFan1O0 s
  let s := { s with hFan1O1 := s.hFan1In }
  let (s, e2) := obaSetHAndIn0 s.hFan1O1 s
  (s, e1 ++ e2)

/-- The outer `Xor` feeds the half adder's input 1. -/
def obaSetXorIn0 (v : Bool) (s : OBA) : OBA × List Bool :=
  let s := { s with xIn0 := v }
  let o := Bool.xor s.xIn0 s.xIn1
  obaSetHFan2In o { s with xOut := o }

def obaSetXorIn1 (v : Bool) (s : OBA) : OBA × List Bool :=
  let s := { s with xIn1 := v }
  let o := Bool.xor s.xIn0 s.xIn1
  obaSetHFan2In o { s with xOut := o }

/-- The outer `And` feeds `or` in1. -/
def obaSetAndIn0 (v : Bool) (s : OBA) : OBA × List Bool :=
  let s := { s with aIn0 := v }
  let o := s.aIn0 && s.aIn1
  obaSetOrIn1 o { s with aOut := o }

def obaSetAndIn1 (v : Bool) (s : OBA) : OBA × List Bool :=
  let s := { s with aIn1 := v }
  let o := s.aIn0 && s.aIn1
  obaSetOrIn1 o { s with aOut := o }

/-- Public input 0 (= fan1 input).  fan1's out0 forwards to the `Xor`'s
input 0 and then the `And`'s input 0, in `addConnection` order; fan1's
out1 is written but unconnected. -/
def obaSetIn0 (v : Bool) (s : OBA) : OBA × List Bool :=
  let s := { s with fan1In := v }
  let s := { s with fan1O0 := s.fan1In }
  let (s, e1) := obaSetXorIn0 s.fan1O0 s
  let (s, e2) := obaSetAndIn0 s.fan1O0 s
  let s := { s with fan1O1 := s.fan1In }
  (s, e1 ++ e2)

/-- Public input 1 (= fan2 input). -/
def obaSetIn1 (v : Bool) (s : OBA) : OBA × List Bool :=
  let s := { s with fan2In := v }
  let s := { s with fan2O0 := s.fan2In }
  let (s, e1) := obaSetXorIn1 s.fan2O0 s
  let (s, e2) := obaSetAndIn1 s.fan2O0 s
  let s := { s with fan2O1 := s.fan2In }
  (s, e1 ++ e2)

/-- Public input 2 (= half adder input 0). -/
def obaSetIn2 : Bool → OBA → OBA × List Bool := obaSetHFan1In

/-- Fresh `OneBitAdder()`: all pins `False` (the constructor only aliases
and connects). -/
def obaInit : OBA := ⟨false, false, false, false, false, false, false, false,
  false, false, false, false, false, false, false, false, false, false,
  false, false, false, false, false, false, false, false, false⟩

/-- The adder's carry output (public output 0) is the `Or`'s output pin. -/
def OBA.carry (s : OBA) : Bool := s.oOut

/-- The adder's sum output (public output 1) is the half adder's xor pin. -/
def OBA.sum (s : OBA) : Bool := s.hXOut

/-! ## `FourBitAdder` (lines 505-540)

Four `OneBitAdder`s.  Public inputs 0,2,4,6 = adders' input 0 (operand A
bits), 1,3,5,7 = adders' input 1 (operand B bits), 8 = adder 1 input 2
(carry-in).  Adder k's carry pin is connected to adder k+1's input 2;
adder 4's carry pin is public output 4 with no connection.  Public outputs
0-3 are the four sum pins. -/

structure FBA where
  a1 : OBA
  a2 : OBA
  a3 : OBA
  a4 : OBA
deriving DecidableEq, Repr

/-- A write into adder 4's input 2 (its carry-in): the carry writes it
emits land on the public output-4 pin, which has no connections. -/
def fbaFeed4 (v : Bool) (a : OBA) : OBA := (obaSetIn2 v a).1

/-- A write into adder 3's input 2: each carry write it emits is forwarded
into adder 4's input 2, in order. -/
def fbaFeed3 (v : Bool) (p : OBA × OBA) : OBA × OBA :=
  let (a3, es) := obaSetIn2 v p.1
  (a3, es.foldl (fun a e => fbaFeed4 e a) p.2)

/-- A write into adder 2's input 2, cascading through adders 3 and 4. -/
def fbaFeed2 (v : Bool) (p : OBA × OBA × OBA) : OBA × OBA × OBA :=
  let (a2, es) := obaSetIn2 v p.1
  let q := es.foldl (fun a e => fbaFeed3 e a) (p.2.1, p.2.2)
  (a2, q.1, q.2)

/-- Run an entry function on adder 1 and cascade its carry writes. -/
def fbaRun1 (f : OBA → OBA × List Bool) (s : FBA) : FBA :=
  let (a1, es) := f s.a1
  let q := es.foldl (fun a e => fbaFeed2 e a) (s.a2, s.a3, s.a4)
  ⟨a1, q.1, q.2.1, q.2.2⟩

/-- Run an entry function on adder 2 and cascade its carry writes. -/
def fbaRun2 (f : OBA → OBA × List Bool) (s : FBA) : FBA :=
  let (a2, es) := f s.a2
  let q := es.foldl (fun a e => fbaFeed3 e a) (s.a3, s.a4)
  ⟨s.a1, a2, q.1, q.2⟩

def fbaRun3 (f : OBA → OBA × List Bool) (s : FBA) : FBA :=
  let (a3, es) := f s.a3
  ⟨s.a1, s.a2, a3, es.foldl (fun a e => fbaFeed4 e a) s.a4⟩

def fbaRun4 (f : OBA → OBA × List Bool) (s : FBA) : FBA :=
  ⟨s.a1, s.a2, s.a3, (f s.a4).1⟩

/-- `setIn(index, v)` for the nine public inputs, per the pin aliases of
the constructor (lines 522-530). -/
def FBA.setIn (i : Nat) (v : Bool) (s : FBA) : FBA :=
  match i with
  | 0 => fbaRun1 (obaSetIn0 v) s
  | 1 => fbaRun1 (obaSetIn1 v) s
  | 2 => fbaRun2 (obaSetIn0 v) s
  | 3 => fbaRun2 (obaSetIn1 v) s
  | 4 => fbaRun3 (obaSetIn0 v) s
  | 5 => fbaRun3 (obaSetIn1 v) s
  | 6 => fbaRun4 (obaSetIn0 v) s
  | 7 => fbaRun4 (obaSetIn1 v) s
  | _ => fbaRun1 (obaSetIn2 v) s

def fbaInit : FBA := ⟨obaInit, obaInit, obaInit, obaInit⟩

/-- The 5-bit result `Out4 Out3 Out2 Out1 Out0` as a number. -/
def FBA.outVal (s : FBA) : Nat :=
  s.a1.sum.toNat + 2 * s.a2.sum.toNat + 4 * s.a3.sum.toNat +
    8 * s.a4.sum.toNat + 16 * s.a4.carry.toNat

/-- Drive operand A = `a3 a2 a1 a0`, operand B = `b3 b2 b1 b0` and the
carry-in onto the nine inputs, one `setIn` per pin, in pin-index order. -/
def fbaDrive (a0 a1 a2 a3 b0 b1 b2 b3 c : Bool) (s : FBA) : FBA :=
  (((((((((s.setIn 0 a0).setIn 1 b0).setIn 2 a1).setIn 3
    b1).setIn 4 a2).setIn 5 b2).setIn 6 a3).setIn 7
    b3).setIn 8 c)

/-! ## `ThreeWayAnd` (lines 278-287)

Two `And` gates.  Public pins: input 0 = and1 input 0, input 1 = and2
input 0, input 2 = and2 input 1; and2's output is connected to and1's
input 1; the public output is and1's output.  Inside `FourToOneMux` the
output pin (and1's output) carries a connection, so each propagation
function also returns the ordered list of values written to it. -/

structure TWAState where
  a1In0 : Bool
  a1In1 : Bool
  a1Out : Bool
  a2In0 : Bool
  a2In1 : Bool
  a2Out : Bool
deriving DecidableEq, Repr

/-- Fresh `ThreeWayAnd()`: all pins `False`. -/
def twaInit : TWAState := ⟨false, false, false, false, false, false⟩

/-! ## `FourWayAnd` (lines 298-310) and `FourWayOr` (lines 321-336)

Both have the same wiring — two first-layer gates feeding a third — so one
state record serves both, with the gate function `f` a parameter
(`· && ·` for `FourWayAnd`, `· || ·` for `FourWayOr`).  Public pins:
inputs 0/1 = g1's inputs, inputs 2/3 = g2's inputs; g1's output → g3
input 0, g2's output → g3 input 1; the public output is g3's output
(whose writes are returned as events for use inside `FourToOneMux`). -/

structure Tree4State where
  g1In0 : Bool
  g1In1 : Bool
  g1Out : Bool
  g2In0 : Bool
  g2In1 : Bool
  g2Out : Bool
  g3In0 : Bool
  g3In1 : Bool
  g3Out : Bool
deriving DecidableEq, Repr

/-- Fresh `FourWayAnd()` / `FourWayOr()`: all pins `False`. -/
def tree4Init : Tree4State :=
  ⟨false, false, false, false, false, false, false, false, false⟩

/-! ## `FourToOneMux` (lines 362-410)

Internal gates: `Fan(2)` ×2, `Not` ×2, `ThreeWayAnd` ×4 and a `FourWayOr`.
Public pins: inputs 0/1 = the fans' inputs (the two selectors), inputs
2-5 = the four `ThreeWayAnd`s' input 0; output = the `FourWayOr`'s output.

Connections (`addConnection` order preserved): fan1 out0 → {and3 in1,
and4 in1}, fan1 out1 → not1; fan2 out0 → {and2 in2, and4 in2}, fan2 out1
→ not2; not1 → {and1 in1, and2 in1}; not2 → {and1 in2, and3 in2};
and k's output → or input k−1.  The or's output has no connections. -/

structure M41State where
  f1In : Bool
  f1O0 : Bool
  f1O1 : Bool
  f2In : Bool
  f2O0 : Bool
  f2O1 : Bool
  n1In : Bool
  n1Out : Bool
  n2In : Bool
  n2Out : Bool
  t1 : TWAState
  t2 : TWAState
  t3 : TWAState
  t4 : TWAState
  fw : Tree4State
deriving DecidableEq, Repr

/-- Fresh `FourToOneMux()`: all pins `False`. -/
def m41Init : M41State :=
  ⟨false, false, false, false, false, false, false, false, false, false,
    twaInit, twaInit, twaInit, twaInit, tree4Init⟩

/-! ## `HalfAdder` standalone (lines 425-442)

`Fan(2)` ×2, `Xor`, `And`.  Public pins: input 0 = fan1's input, input 1
= fan2's input; output 0 (carry) = the `And`'s output, output 1 (sum) =
the `Xor`'s output.  fan1 out0 → xor in0, fan1 out1 → and in0, fan2 out0
→ xor in1, fan2 out1 → and in1.  (Inside `OneBitAdder` the half adder's
pins are part of `OBA`; this record is the standalone gate.) -/

structure HAState where
  fan1In : Bool
  fan1O0 : Bool
  fan1O1 : Bool
  fan2In : Bool
  fan2O0 : Bool
  fan2O1 : Bool
  xIn0 : Bool
  xIn1 : Bool
  xOut : Bool
  aIn0 : Bool
  aIn1 : Bool
  aOut : Bool
deriving DecidableEq, Repr

/-- Fresh `HalfAdder()`: all pins `False`. -/
def haInit : HAState :=
  ⟨false, false, false, false, false, false, false, false, false, false,
    false, false⟩

/-! ## `GatedSRLatch` (lines 612-641)

`Fan(2)`, `And` ×2 and an internal `SRLatch`.  Public pins: input 0 =
and1 input 0 (reset), input 1 = and2 input 0 (set), input 2 = the fan's
input (enable); the outputs are aliases of the latch's output pins.
Connections: fan out0 → and1 in1, fan out1 → and2 in1, and1 out → latch
input 0, and2 out → latch input 1.  Each write that reaches the latch
triggers one `SRLatch.refreshOutputs`, whose potential race draw is an
explicit oracle argument (the enable entry reaches the latch twice, so it
takes two oracles). -/

structure GSLState where
  fanIn : Bool
  fanO0 : Bool
  fanO1 : Bool
  a1In0 : Bool
  a1In1 : Bool
  a1Out : Bool
  a2In0 : Bool
  a2In1 : Bool
  a2Out : Bool
  latch : SRLatchState
deriving DecidableEq, Repr

/-- Fresh `GatedSRLatch()`: the fan and and pins are `False`; the internal
latch was constructed first, so its outputs are already Q = false,
notQ = true. -/
def gslInit : GSLState :=
  ⟨false, false, false, false, false, false, false, false, false, srInit⟩

/-! ## `DLatch` (lines 653-678)

`Fan(2)`, `Not` and an internal `GatedSRLatch`.  Public pins: input 0 =
the fan's input (data), input 1 = the gated latch's input 2 (enable); the
outputs alias the gated latch's outputs.  Connections: fan out0 → not in,
fan out1 → gated latch input 1 (set), not out → gated latch input 0
(reset). -/

structure DLState where
  fanIn : Bool
  fanO0 : Bool
  fanO1 : Bool
  nIn : Bool
  nOut : Bool
  gsl : GSLState
deriving DecidableEq, Repr

/-- Fresh `DLatch()`: fan and not pins `False`; the internal gated latch
starts as a fresh `GatedSRLatch`. -/
def dlInit : DLState := ⟨false, false, false, false, false, gslInit⟩

/-! ## Settled states

A gate's network is *settled* when every internal gate's outputs agree with
its `refreshOutputs` rule on the current pin values and every connection's
destination pin holds its source pin's value — the states reached once every
propagation has run to quiescence.  A freshly constructed combinational gate
is *not* settled (its outputs were never computed). -/

/-- The state of a `OneBitAdder` after each of its three inputs has been
driven once, in pin order — the settled state for inputs `(a, b, c)`. -/
def obaSettle (a b c : Bool) : OBA :=
  (obaSetIn2 c (obaSetIn1 b (obaSetIn0 a obaInit).1).1).1

/-- The settled state of a `FourBitAdder` for the given operand bits. -/
def fbaSettle (a0 a1 a2 a3 b0 b1 b2 b3 c : Bool) : FBA :=
  fbaDrive a0 a1 a2 a3 b0 b1 b2 b3 c fbaInit

/-- C1: the claim says `getOut(index)` with a valid index returns the
current boolean value of the output pin.  The code's `Gate.getOut` is
missing its `return` statement: it looks the pin up, reads its value and
returns Python's `None`.  On a gate whose output pin 0 currently holds
`True`, `getOut(0)` succeeds but yields `None` — and no call of `getOut`
ever yields a boolean (the successful result, as an optional boolean, is
always empty). -/
theorem getOut_yields_none :
    getOutE ⟨[false], [true]⟩ 0 = .ok none ∧
      ∀ (g : GateState) (i : Int), Option.join (getOutE g i).toOption = none := by
  refine ⟨rfl, fun g i => ?_⟩
  unfold getOutE
  rcases hx : getOutPinE g i with e | b <;> rfl

/-- C2: after driving every input through `setInput`, each primitive gate's
output pins match the §4.5 truth tables: AND's output is `in0 ∧ in1`, OR's
is `in0 ∨ in1`, NOT's is `¬in0`, XOR's is `in0 ⊕ in1`, and every output of
`Fan(n)` equals its single input, from any prior state. -/
theorem primitive_truth_tables :
    (∀ (s : AndState) (a b : Bool), (andSetIn1 b (andSetIn0 a s)).out = (a && b)) ∧
    (∀ (s : OrState) (a b : Bool), (orSetIn1 b (orSetIn0 a s)).out = (a || b)) ∧
    (∀ (s : NotState) (a : Bool), (notSetIn0 a s).out = !a) ∧
    (∀ (s : XorState) (a b : Bool), (xorSetIn1 b (xorSetIn0 a s)).out = Bool.xor a b) ∧
    (∀ (s : FanState) (v : Bool),
      (fanSetIn0 v s).inp = v ∧
        (fanSetIn0 v s).outs = List.replicate s.outs.length v) := by
  refine ⟨fun s a b => rfl, fun s a b => rfl, fun s a => rfl, fun s a b => rfl,
    fun s v => ⟨rfl, ?_⟩⟩
  simp [fanSetIn0, fanRefresh, List.map_const']

/-- C4: every `setInput`-driven activation of the `SRLatch` follows the
§4.7 state machine.  After the write, with R = 0 and S = 0 both outputs
retain their previous values; with R = 1, S = 0 they become
(Q = false, notQ = true); with R = 0, S = 1 they become
(Q = true, notQ = false); and whatever the race draw `x`, Q and notQ are
complementary after every activation from a complementary state. -/
theorem srlatch_state_machine :
    ∀ (s : SRLatchState) (x v : Bool),
      ((v = false → s.sIn = false →
        (srSetIn0 x v s).q = s.q ∧ (srSetIn0 x v s).nq = s.nq) ∧
       (v = true → s.sIn = false →
        (srSetIn0 x v s).q = false ∧ (srSetIn0 x v s).nq = true) ∧
       (v = false → s.sIn = true →
        (srSetIn0 x v s).q = true ∧ (srSetIn0 x v s).nq = false) ∧
       (s.q = !s.nq → (srSetIn0 x v s).q = !(srSetIn0 x v s).nq)) ∧
      ((s.rIn = false → v = false →
        (srSetIn1 x v s).q = s.q ∧ (srSetIn1 x v s).nq = s.nq) ∧
       (s.rIn = true → v = false →
        (srSetIn1 x v s).q = false ∧ (srSetIn1 x v s).nq = true) ∧
       (s.rIn = false → v = true →
        (srSetIn1 x v s).q = true ∧ (srSetIn1 x v s).nq = false) ∧
       (s.q = !s.nq → (srSetIn1 x v s).q = !(srSetIn1 x v s).nq)) := by
  intro s x v
  obtain ⟨r, t, q, nq⟩ := s
  refine ⟨⟨?_, ?_, ?_, ?_⟩, ⟨?_, ?_, ?_, ?_⟩⟩ <;> revert r t q nq x v <;> decide

/-- C4 witness: from the freshly constructed latch, `setIn(1, True)`
(S = 1, R = 0) sets the memory: Q becomes true and notQ false. -/
theorem srlatch_state_machine_witness :
    (srSetIn1 false true srInit).q = true ∧ (srSetIn1 false true srInit).nq = false :=
  (srlatch_state_machine srInit false true).2.2.2.1 rfl rfl

set_option maxRecDepth 100000 in
set_option maxHeartbeats 4000000 in
/-- C5: after driving all inputs through `setInput` (in pin order), a
`OneBitAdder` satisfies `2*carry + sum = in0 + in1 + in2` on all 8 input
combinations, and a `FourBitAdder`'s 5-bit result equals the sum of its two
4-bit operands plus the carry-in on all 512 operand combinations
(including 0+0+0 = 0, 15+1+0 = 16 and 15+15+1 = 31). -/
theorem adders_compute_sums :
    (∀ a b c : Bool,
      2 * (obaSettle a b c).carry.toNat + (obaSettle a b c).sum.toNat =
        a.toNat + b.toNat + c.toNat) ∧
    (∀ a0 a1 a2 a3 b0 b1 b2 b3 c : Bool,
      (fbaSettle a0 a1 a2 a3 b0 b1 b2 b3 c).outVal =
        (a0.toNat + 2 * a1.toNat + 4 * a2.toNat + 8 * a3.toNat) +
          (b0.toNat + 2 * b1.toNat + 4 * b2.toNat + 8 * b3.toNat) + c.toNat) := by
  constructor
  · decide
  · decide

/-- C6: driving the `TwoToOneMux`'s three inputs through `setInput`, for
all 8 combinations: with the selector (pin 0) low the output equals data
input 0 (pin 1) regardless of data input 1 (pin 2); with the selector high
the output equals data input 1 regardless of data input 0. -/
theorem mux_selects_by_pin_convention :
    ∀ sel d0 d1 : Bool,
      (muxSetIn2 d1 (muxSetIn1 d0 (muxSetIn0 sel muxInit))).oOut =
        if sel then d1 else d0 := by
  decide

/-- C7: for all four combinations of the two inputs, the `Nand`, `Nor` and
`Xnor` composites produce exactly the negation of what `And`, `Or` and
`Xor` produce on the same inputs. -/
theorem composite_negations :
    ∀ a b : Bool,
      (nandSetIn1 b (nandSetIn0 a chain2Init)).bOut =
          !(andSetIn1 b (andSetIn0 a andInit)).out ∧
        (norSetIn1 b (norSetIn0 a chain2Init)).bOut =
          !(orSetIn1 b (orSetIn0 a orInit)).out ∧
        (xnorSetIn1 b (xnorSetIn0 a chain2Init)).bOut =
          !(xorSetIn1 b (xorSetIn0 a xorInit)).out := by
  decide

/-- C8: for every gate (any pin lists, any recompute rule), the get and set
paths on input and output pins fail with the pin-index `GateException` for
every index outside `[0, count)` — in particular at −1, `count` and
`count + 1` — and the failure happens in `getInPin`/`getOutPin` before any
mutation, so the erroring call produces no new state; every index inside
the range succeeds. -/
theorem pin_index_bounds :
    ∀ (g : GateState) (refresh : List Bool → List Bool → List Bool)
      (i : Int) (v : Bool),
      (¬(0 ≤ i ∧ i < (g.inputs.length : Int)) →
        getInE g i = .error "No input pin on this gate." ∧
          setInE refresh g i v = .error "No input pin on this gate.") ∧
      (¬(0 ≤ i ∧ i < (g.outputs.length : Int)) →
        getOutE g i = .error "No output pin on this gate." ∧
          setOutE g i v = .error "No output pin on this gate.") ∧
      ((0 ≤ i ∧ i < (g.inputs.length : Int)) →
        (∃ b, getInE g i = .ok b) ∧ ∃ g2, setInE refresh g i v = .ok g2) ∧
      ((0 ≤ i ∧ i < (g.outputs.length : Int)) →
        (∃ o, getOutE g i = .ok o) ∧ ∃ g2, setOutE g i v = .ok g2) := by
  intro g refresh i v
  refine ⟨fun h => ⟨dif_neg h, if_neg h⟩,
    fun h => ⟨?_, if_neg h⟩,
    fun h => ⟨⟨_, dif_pos h⟩, ⟨_, if_pos h⟩⟩,
    fun h => ⟨⟨none, ?_⟩, ⟨_, if_pos h⟩⟩⟩
  · unfold getOutE getOutPinE
    rw [dif_neg h]
    rfl
  · unfold getOutE getOutPinE
    rw [dif_pos h]
    rfl

/-- C8 witness: on a gate with one input pin and one output pin, index −1
errors on the get path and index 1 (= count) errors on the set path, while
index 0 succeeds. -/
theorem pin_index_bounds_witness :
    getInE ⟨[false], [false]⟩ (-1) = .error "No input pin on this gate." ∧
      setOutE ⟨[false], [false]⟩ 1 true = .error "No output pin on this gate." ∧
      ∃ b, getInE ⟨[false], [false]⟩ 0 = .ok b :=
  ⟨((pin_index_bounds ⟨[false], [false]⟩ (fun a _ => a) (-1) false).1 (by decide)).1,
   ((pin_index_bounds ⟨[false], [false]⟩ (fun a _ => a) 1 true).2.1 (by decide)).2,
   ((pin_index_bounds ⟨[false], [false]⟩ (fun a _ => a) 0 false).2.2.1 (by decide)).1⟩

/-- C9: `TwoGateChain(a, b)` raises a `GateException` at construction time
whenever `a`'s output count differs from `b`'s input count, before any
connection is made; when the counts agree, construction succeeds and wires
output `i` of `a` to input `i` of `b` for every `i` (in particular the
`Nand`/`Nor`/`Xnor` case of one output into one input succeeds with the
single connection (0, 0)). -/
theorem chain_arity_check :
    (∀ aOuts bIns : Nat,
      (aOuts ≠ bIns →
        twoGateChainConnections aOuts bIns =
          .error "Cannot connect output pins to input pins") ∧
      (aOuts = bIns →
        ∃ conns, twoGateChainConnections aOuts bIns = .ok conns ∧
          conns.length = aOuts ∧ ∀ i < aOuts, (i, i) ∈ conns)) ∧
    twoGateChainConnections 1 1 = .ok [(0, 0)] := by
  refine ⟨fun aOuts bIns => ⟨fun h => if_pos h, fun h => ?_⟩, rfl⟩
  refine ⟨(List.range aOuts).map (fun i => (i, i)), ?_, by simp, ?_⟩
  · unfold twoGateChainConnections
    rw [if_neg (not_not_intro h)]
  · intro i hi
    simp only [List.mem_map, List.mem_range]
    exact ⟨i, hi, rfl⟩

/-- C9 witness: chaining a gate with three outputs into a gate expecting
two inputs fails with the wiring exception; the matched one-into-one case
succeeds with connection (0, 0). -/
theorem chain_arity_check_witness :
    twoGateChainConnections 3 2 =
      .error "Cannot connect output pins to input pins" :=
  (chain_arity_check.1 3 2).1 (by decide)

/-- C10: immediately after construction, before any `setInput`, every pin
of every combinational gate — And, Or, Not, Xor, Fan(n), the
Nand/Nor/Xnor chains, TwoToOneMux, ThreeWayAnd, FourWayAnd, FourWayOr,
FourToOneMux, HalfAdder, OneBitAdder and FourBitAdder — holds `false`
(the constructors only alias and connect pins; no recomputation runs), so
a fresh gate's outputs need not satisfy its truth table: a fresh `Not`
reads input `false` yet also outputs `false` while `¬false = true`, and
the first `setInput` establishes the truth table.  The `SRLatch` is the
exception: its constructor drives Q = false, notQ = true (hence a fresh
`GatedSRLatch` or `DLatch` also starts with its internal latch in that
state and every other pin `false`). -/
theorem fresh_gates_unrefreshed_all_false :
    andInit = ⟨false, false, false⟩ ∧
    orInit = ⟨false, false, false⟩ ∧
    notInit = ⟨false, false⟩ ∧
    xorInit = ⟨false, false, false⟩ ∧
    (∀ n, fanInit n = ⟨false, List.replicate n false⟩) ∧
    chain2Init = ⟨false, false, false, false, false⟩ ∧
    muxInit = ⟨false, false, false, false, false, false, false,
      false, false, false, false, false, false, false⟩ ∧
    twaInit = ⟨false, false, false, false, false, false⟩ ∧
    tree4Init = ⟨false, false, false, false, false, false, false, false, false⟩ ∧
    m41Init = ⟨false, false, false, false, false, false, false, false, false,
      false, twaInit, twaInit, twaInit, twaInit, tree4Init⟩ ∧
    haInit = ⟨false, false, false, false, false, false, false, false, false,
      false, false, false⟩ ∧
    obaInit = ⟨false, false, false, false, false, false, false, false,
      false, false, false, false, false, false, false, false, false, false,
      false, false, false, false, false, false, false, false, false⟩ ∧
    fbaInit = ⟨obaInit, obaInit, obaInit, obaInit⟩ ∧ fbaInit.outVal = 0 ∧
    notInit.out = false ∧ (!notInit.in0) = true ∧
    (notSetIn0 notInit.in0 notInit).out = !notInit.in0 ∧
    srInit = ⟨false, false, false, true⟩ ∧
    gslInit = ⟨false, false, false, false, false, false, false, false, false,
      srInit⟩ ∧
    dlInit = ⟨false, false, false, false, false, gslInit⟩ :=
  ⟨rfl, rfl, rfl, rfl, fun _ => rfl, rfl, rfl, rfl, rfl, rfl,
    rfl, rfl, rfl, rfl, rfl, rfl, rfl, rfl, rfl, rfl⟩

end Gates
